import Mathlib

/-!
Verification development for the `database_postgres` bootstrap utility.

The repository consists of two Python scripts:

* `init_db.py` — creates a SQLite development database (`myapp.db`), applies
  three pragmas, executes fourteen guarded DDL statements (six `CREATE TABLE
  IF NOT EXISTS`, eight `CREATE INDEX IF NOT EXISTS`), seeds two `app_info`
  rows with `INSERT OR REPLACE`, commits, and then writes three auxiliary
  text artifacts, each in its own try/except block.
* `test_db.py` — checks that the database file exists and that a required set
  of table names is present, returning process exit code 0 or 1.

The embedding below models the durable database state observable by these
scripts (table names, index names, `app_info` rows), the sequence of
operations `init_sqlite_db` performs on a connection, and the validator's
decision function.  Connection-level transaction semantics follow the
documented behaviour of Python's `sqlite3` module under its default (legacy)
transaction control:

* a transaction is implicitly opened only before data-modification statements
  (INSERT / UPDATE / DELETE / REPLACE); DDL and PRAGMA statements execute in
  autocommit mode, i.e. they are durable immediately;
* `Connection.commit()` makes the pending transaction durable;
* a connection used as a context manager commits on normal exit and rolls
  back on an exception, and it does **not** close the connection.
-/

deriving instance DecidableEq for Except

namespace DatabasePostgres

namespace InitDb

/-- One row of the `app_info` table as far as the scripts observe it:
the surrogate id assigned by AUTOINCREMENT, the unique `key`, and `value`. -/
structure AppInfoRow where
  id : Nat
  key : String
  value : String
deriving DecidableEq

/-- Durable state of the database file, restricted to what the two scripts
read or write: the set of (non-internal) table names, the set of index
names, the `app_info` rows, and the next AUTOINCREMENT id for `app_info`. -/
structure DBState where
  tables : Finset String
  indexes : Finset String
  appInfo : List AppInfoRow
  nextId : Nat
deriving DecidableEq

/-- The state of a freshly created (empty) database file. -/
def freshDB : DBState := ⟨∅, ∅, [], 1⟩

/-- A DDL statement from `schema_statements` in `init_db.py`, in structured
form: either a table creation (with its IF NOT EXISTS guard and the list of
tables its FOREIGN KEY clauses reference) or an index creation (with its
guard, the indexed table and column). -/
inductive Stmt where
  | createTable (name : String) (ifNotExists : Bool) (fkTargets : List String)
  | createIndex (name : String) (ifNotExists : Bool) (table : String) (column : String)
deriving DecidableEq

/-- The `schema_statements` list of `init_db.py`, transcribed statement by
statement.  Six guarded CREATE TABLE statements (`app_info`, `users`,
`credentials` referencing `users`, `shares` referencing `credentials` and
`users`, `ekyc_sessions` referencing `users`, `audit_logs` referencing
`users`) followed by eight guarded CREATE INDEX statements. -/
def schemaStmts : List Stmt :=
  [Stmt.createTable "app_info" true [],
   Stmt.createTable "users" true [],
   Stmt.createTable "credentials" true ["users"],
   Stmt.createTable "shares" true ["credentials", "users"],
   Stmt.createTable "ekyc_sessions" true ["users"],
   Stmt.createTable "audit_logs" true ["users"],
   Stmt.createIndex "idx_users_email" true "users" "email",
   Stmt.createIndex "idx_users_username" true "users" "username",
   Stmt.createIndex "idx_credentials_user_id" true "credentials" "user_id",
   Stmt.createIndex "idx_shares_credential_id" true "shares" "credential_id",
   Stmt.createIndex "idx_shares_shared_with_user_id" true "shares" "shared_with_user_id",
   Stmt.createIndex "idx_ekyc_user_id" true "ekyc_sessions" "user_id",
   Stmt.createIndex "idx_audit_user_id" true "audit_logs" "user_id",
   Stmt.createIndex "idx_audit_created_at" true "audit_logs" "created_at"]

/-- Effect of a single DDL statement on the database schema, following the
SQLite semantics of the statements used by the script: a guarded CREATE is a
no-op when the object already exists, an unguarded CREATE of an existing
object is an error, and CREATE INDEX on a missing table is an error. -/
def applyStmt (s : DBState) : Stmt → Except String DBState
  | Stmt.createTable n ine _ =>
    if n ∈ s.tables then
      if ine then Except.ok s else Except.error ("table " ++ n ++ " already exists")
    else Except.ok { s with tables := insert n s.tables }
  | Stmt.createIndex n ine t _ =>
    if n ∈ s.indexes then
      if ine then Except.ok s else Except.error ("index " ++ n ++ " already exists")
    else if t ∈ s.tables then Except.ok { s with indexes := insert n s.indexes }
    else Except.error ("no such table: " ++ t)

/-- Effect of `INSERT OR REPLACE INTO app_info (key, value) VALUES (?, ?)` on
the row list: every row conflicting on the unique `key` column is deleted and
a fresh row with a new AUTOINCREMENT id is appended. -/
def iorRows (rows : List AppInfoRow) (i : Nat) (k v : String) : List AppInfoRow :=
  rows.filter (fun r => r.key != k) ++ [⟨i, k, v⟩]

/-- `INSERT OR REPLACE` at the level of the whole database state. -/
def insertOrReplace (s : DBState) (k v : String) : DBState :=
  { s with appInfo := iorRows s.appInfo s.nextId k v, nextId := s.nextId + 1 }

/-- One operation executed by `init_sqlite_db` on its connection. -/
inductive Op where
  | pragma
  | ddl (st : Stmt)
  | dml (key value : String)
  | commit
deriving DecidableEq

/-- The operations `init_sqlite_db` performs, in source order: the three
pragma statements, the fourteen DDL statements via `_execute_many`, the two
seed inserts, the explicit `conn.commit()`, and the implicit commit issued by
the connection context manager on normal exit. -/
def initOps : List Op :=
  [Op.pragma, Op.pragma, Op.pragma] ++ schemaStmts.map Op.ddl ++
    [Op.dml "project_name" "database_postgres",
     Op.dml "version" "0.2.0",
     Op.commit, Op.commit]

/-- An open `sqlite3` connection: the durable file state plus the pending
(uncommitted) transaction view, when a transaction is open. -/
structure Conn where
  durable : DBState
  txn : Option DBState
deriving DecidableEq

/-- Execute one operation on a connection, following `sqlite3`'s legacy
transaction control: pragmas do not change the schema state; DDL executes in
autocommit mode when no transaction is open (durable immediately); DML opens
an implicit transaction and buffers its effect; commit makes the pending
transaction durable. -/
def execOp (c : Conn) : Op → Except String Conn
  | Op.pragma => Except.ok c
  | Op.ddl st =>
    match c.txn with
    | none => (applyStmt c.durable st).map (fun d => ⟨d, none⟩)
    | some t => (applyStmt t st).map (fun t2 => ⟨c.durable, some t2⟩)
  | Op.dml k v =>
    Except.ok ⟨c.durable, some (insertOrReplace (c.txn.getD c.durable) k v)⟩
  | Op.commit => Except.ok ⟨c.txn.getD c.durable, none⟩

/-- Run a list of operations in order, stopping at the first error. -/
def runOps (c : Conn) : List Op → Except String Conn
  | [] => Except.ok c
  | op :: rest =>
    match execOp c op with
    | Except.ok c2 => runOps c2 rest
    | Except.error e => Except.error e

/-- Rollback, as performed by the connection context manager when the body
raises: the pending transaction is discarded, the durable state is kept. -/
def rollback (c : Conn) : Conn := ⟨c.durable, none⟩

/-- The effect of a complete, successful run of `init_sqlite_db` on the
database state (the auxiliary file writes are modelled separately). -/
def init_sqlite_db (s : DBState) : Except String DBState :=
  (runOps ⟨s, none⟩ initOps).map Conn.durable

/-- Durable database state left behind when the first `n` operations of
`init_sqlite_db` succeed and operation `n` then raises a storage error: the
context manager rolls the pending transaction back and re-raises, so the file
keeps everything that was already durable (`none` if an earlier operation
already failed intrinsically). -/
def durableOnFailureAt (s : DBState) (n : Nat) : Option DBState :=
  match runOps ⟨s, none⟩ (initOps.take n) with
  | Except.ok c => some (rollback c).durable
  | Except.error _ => none

/-- Whether a DDL statement carries the IF NOT EXISTS guard. -/
def guardedStmt : Stmt → Bool
  | Stmt.createTable _ ine _ => ine
  | Stmt.createIndex _ ine _ _ => ine

/-- Checks the dependency ordering of a DDL statement list given the set of
tables already created: every CREATE TABLE may only reference already-created
tables in its FOREIGN KEY clauses, and every CREATE INDEX may only target an
already-created table. -/
def ddlOrdered : List Stmt → List String → Bool
  | [], _ => true
  | Stmt.createTable n _ fks :: rest, created =>
    fks.all (fun t => created.contains t) && ddlOrdered rest (n :: created)
  | Stmt.createIndex _ _ t _ :: rest, created =>
    created.contains t && ddlOrdered rest created

/-- The (table, column) pair covered by an index-creation statement. -/
def indexKey : Stmt → Option (String × String)
  | Stmt.createIndex _ _ t c => some (t, c)
  | _ => none

/-- The six table names created by the DDL of `init_sqlite_db`. -/
def sixTableNames : Finset String :=
  {"app_info", "users", "credentials", "shares", "ekyc_sessions", "audit_logs"}

/-- The eight index names created by the DDL of `init_sqlite_db`. -/
def eightIndexNames : Finset String :=
  {"idx_users_email", "idx_users_username", "idx_credentials_user_id",
   "idx_shares_credential_id", "idx_shares_shared_with_user_id",
   "idx_ekyc_user_id", "idx_audit_user_id", "idx_audit_created_at"}

/-- The database state after the fourteen DDL statements have run. -/
def postDDL (s : DBState) : DBState :=
  { s with tables := sixTableNames ∪ s.tables,
           indexes := eightIndexNames ∪ s.indexes }

/-- The database state a successful run of `init_sqlite_db` commits:
the DDL result with the two seed rows upserted. -/
def finalState (s : DBState) : DBState :=
  insertOrReplace
    (insertOrReplace (postDDL s) "project_name" "database_postgres")
    "version" "0.2.0"

/-- The `app_info` rows that are neither of the two seed keys (the rows the
seeding step leaves untouched). -/
def purged (A : List AppInfoRow) : List AppInfoRow :=
  A.filter (fun r => r.key != "version" && r.key != "project_name")

/-- Connection-lifecycle events. -/
inductive ConnEvent where
  | openConn
  | commitTxn
  | rollbackTxn
  | closeConn
deriving DecidableEq

/-- The connection-lifecycle events performed by `init_sqlite_db` on its
single connection, by exit path.  Per the documented behaviour of `sqlite3`,
the `with sqlite3.connect(db_path) as conn:` context manager commits the
pending transaction on normal exit and rolls it back when the body raises,
but it neither opens nor closes the connection; the function body contains an
explicit `conn.commit()` and no call to `conn.close()` on any path. -/
def connEvents (raises : Bool) : List ConnEvent :=
  ConnEvent.openConn ::
    (if raises then [ConnEvent.rollbackTxn]
     else [ConnEvent.commitTxn, ConnEvent.commitTxn])

/-- The three auxiliary artifact paths written by `write_connection_files`,
in source order. -/
def artifactPaths : List String :=
  ["db_connection.txt", ".env", "db_visualizer/sqlite.env"]

/-- A single `open(path, "w")`/`f.write(...)` block, which either succeeds or
raises; the environment decides which paths fail (`fails`). -/
def tryWrite (fails : String → Bool) (path : String) : Except String Unit :=
  if fails path then Except.error ("Could not write " ++ path) else Except.ok ()

/-- Outcome of `write_connection_files`: the artifacts actually written and
the warning messages printed for the ones whose write raised. -/
structure WriteReport where
  written : List String
  warnings : List String
deriving DecidableEq

/-- The three try/except blocks of `write_connection_files`, in source order:
each block attempts its own artifact, catches any exception from that write,
records a warning and continues; the function itself never raises. -/
def write_connection_files (fails : String → Bool) : WriteReport :=
  let s1 : WriteReport :=
    match tryWrite fails "db_connection.txt" with
    | Except.ok _ => ⟨["db_connection.txt"], []⟩
    | Except.error e => ⟨[], ["Warning: " ++ e]⟩
  let s2 : WriteReport :=
    match tryWrite fails ".env" with
    | Except.ok _ => ⟨s1.written ++ [".env"], s1.warnings⟩
    | Except.error e => ⟨s1.written, s1.warnings ++ ["Warning: " ++ e]⟩
  match tryWrite fails "db_visualizer/sqlite.env" with
  | Except.ok _ => ⟨s2.written ++ ["db_visualizer/sqlite.env"], s2.warnings⟩
  | Except.error e => ⟨s2.written, s2.warnings ++ ["Warning: " ++ e]⟩

/-- A whole run of `init_sqlite_db` followed by `write_connection_files`
(which `init_sqlite_db` calls after the connection block): the artifact
writes happen only when schema initialization succeeded, and their failures
never turn the overall run into an error. -/
def initAndWrite (s : DBState) (fails : String → Bool) :
    Except String (DBState × WriteReport) :=
  (init_sqlite_db s).map (fun d => (d, write_connection_files fails))

/-- The `_execute_many` helper of `init_db.py`: for each statement in order,
strip it and execute the stripped text unless it is empty.  The result is the
list of statement texts actually passed to `cursor.execute`, in order.
(Python's `str.strip()` and Lean's `String.trim` agree on the ASCII
whitespace appearing in SQL text.) -/
def _execute_many : List String → List String
  | [] => []
  | stmt :: rest =>
    let s := stmt.trim
    if s = "" then _execute_many rest else s :: _execute_many rest

end InitDb

namespace TestDb

/-- The default database file name shared by both scripts. -/
def DB_NAME : String := "myapp.db"

/-- The `REQUIRED_TABLES` set of `test_db.py` (five tables; `app_info` is not
among them). -/
def REQUIRED_TABLES : Finset String :=
  {"users", "credentials", "shares", "ekyc_sessions", "audit_logs"}

/-- Whether a table name matches the SQL pattern `LIKE 'sqlite_%'` used in
the validator's query.  In SQL LIKE, `_` matches exactly one character, `%`
matches any suffix, and ASCII letters compare case-insensitively, so a name
matches exactly when it has at least seven characters and its first six
characters spell "sqlite" up to ASCII case. -/
def likeSqliteWildcard (name : String) : Bool :=
  match name.data with
  | c1 :: c2 :: c3 :: c4 :: c5 :: c6 :: _ :: _ =>
    (c1.toLower == 's') && (c2.toLower == 'q') && (c3.toLower == 'l') &&
      (c4.toLower == 'i') && (c5.toLower == 't') && (c6.toLower == 'e')
  | _ => false

/-- Whether a table name literally begins with the seven characters
`sqlite_` (the engine-internal naming convention; used to state properties
about internal tables, independently of the broader LIKE pattern the query
uses). -/
def beginsWithSqliteUnd (n : String) : Bool :=
  match n.data with
  | c1 :: c2 :: c3 :: c4 :: c5 :: c6 :: c7 :: _ =>
    (c1 == 's') && (c2 == 'q') && (c3 == 'l') && (c4 == 'i') && (c5 == 't') &&
      (c6 == 'e') && (c7 == '_')
  | _ => false

/-- The validator's query
`SELECT name FROM sqlite_master WHERE type='table' AND name NOT LIKE 'sqlite_%'`
over the full list of table names recorded in the database. -/
def selectTables (master : List String) : List String :=
  master.filter (fun n => !(likeSqliteWildcard n))

/-- The message printed by the validator, in structured form. -/
inductive ValidatorMsg where
  | fileNotFound
  | missingTables (missing existing : Finset String)
  | allPresent
  | schemaError (e : String)
deriving DecidableEq

/-- Join a list of strings with ", ", as Python's `", ".join` does. -/
def joinComma : List String → String
  | [] => ""
  | [x] => x
  | x :: y :: rest => x ++ ", " ++ joinComma (y :: rest)

/-- The elements of a finite set of strings in sorted order, as Python's
`sorted` produces them. -/
def sortedList (s : Finset String) : List String :=
  s.sort (fun a b => a ≤ b)

/-- The text the validator prints in each case (for the missing-tables case,
both printed lines joined by a newline). -/
def msgText : ValidatorMsg → String
  | ValidatorMsg.fileNotFound => "Database file 'myapp.db' not found"
  | ValidatorMsg.missingTables m ex =>
    "Missing tables: " ++ joinComma (sortedList m) ++ "\n" ++
      "Existing tables: " ++ joinComma (sortedList ex)
  | ValidatorMsg.allPresent => "All required tables are present."
  | ValidatorMsg.schemaError e => "Schema validation failed: " ++ e

/-- The validator's result: the process exit code and the message printed. -/
structure ValidatorResult where
  exitCode : Nat
  msg : ValidatorMsg
deriving DecidableEq

/-- The `main` function of `test_db.py`: fail fast when the database file
does not exist; otherwise run the table query (whose outcome — the recorded
table-name list, or a storage-engine error — is the `query` argument), take
the set difference of `REQUIRED_TABLES` minus the existing names, and report
accordingly. -/
def main (fileExists : Bool) (query : Except String (List String)) :
    ValidatorResult :=
  if !fileExists then ⟨1, ValidatorMsg.fileNotFound⟩
  else
    match query with
    | Except.error e => ⟨1, ValidatorMsg.schemaError e⟩
    | Except.ok master =>
      let existing : Finset String := (selectTables master).toFinset
      let missing : Finset String := REQUIRED_TABLES \ existing
      if missing = ∅ then ⟨0, ValidatorMsg.allPresent⟩
      else ⟨1, ValidatorMsg.missingTables missing existing⟩

end TestDb

/-! ## Helper lemmas about the initializer's run -/

namespace InitDb

theorem execOp_pragma (c : Conn) : execOp c Op.pragma = Except.ok c := rfl

theorem execOp_createTable (t i : Finset String) (a : List AppInfoRow)
    (n0 : Nat) (n : String) (fks : List String) :
    execOp ⟨⟨t, i, a, n0⟩, none⟩ (Op.ddl (Stmt.createTable n true fks)) =
      Except.ok ⟨⟨insert n t, i, a, n0⟩, none⟩ := by
  by_cases h : n ∈ t
  · simp [execOp, applyStmt, Except.map, h, Finset.insert_eq_self.mpr h]
  · simp [execOp, applyStmt, Except.map, h]

theorem execOp_createIndex (t i : Finset String) (a : List AppInfoRow)
    (n0 : Nat) (n tb c : String) (ht : tb ∈ t) :
    execOp ⟨⟨t, i, a, n0⟩, none⟩ (Op.ddl (Stmt.createIndex n true tb c)) =
      Except.ok ⟨⟨t, insert n i, a, n0⟩, none⟩ := by
  by_cases h : n ∈ i
  · simp [execOp, applyStmt, Except.map, h, ht, Finset.insert_eq_self.mpr h]
  · simp [execOp, applyStmt, Except.map, h, ht]

theorem execOp_dml_none (d : DBState) (k v : String) :
    execOp ⟨d, none⟩ (Op.dml k v) =
      Except.ok ⟨d, some (insertOrReplace d k v)⟩ := rfl

theorem execOp_dml_some (d x : DBState) (k v : String) :
    execOp ⟨d, some x⟩ (Op.dml k v) =
      Except.ok ⟨d, some (insertOrReplace x k v)⟩ := rfl

theorem execOp_commit_some (d x : DBState) :
    execOp ⟨d, some x⟩ Op.commit = Except.ok ⟨x, none⟩ := rfl

theorem execOp_commit_none (d : DBState) :
    execOp ⟨d, none⟩ Op.commit = Except.ok ⟨d, none⟩ := rfl

theorem runOps_cons_ok {c c2 : Conn} {op : Op} {rest : List Op}
    (h : execOp c op = Except.ok c2) :
    runOps c (op :: rest) = runOps c2 rest := by
  simp [runOps, h]

theorem insert_chain_tables (t : Finset String) :
    insert "audit_logs" (insert "ekyc_sessions" (insert "shares"
      (insert "credentials" (insert "users" (insert "app_info" t))))) =
      sixTableNames ∪ t := by
  ext a
  simp [sixTableNames, Finset.mem_insert, Finset.mem_union]
  tauto

theorem insert_chain_indexes (i : Finset String) :
    insert "idx_audit_created_at" (insert "idx_audit_user_id"
      (insert "idx_ekyc_user_id" (insert "idx_shares_shared_with_user_id"
        (insert "idx_shares_credential_id" (insert "idx_credentials_user_id"
          (insert "idx_users_username" (insert "idx_users_email" i))))))) =
      eightIndexNames ∪ i := by
  ext a
  simp [eightIndexNames, Finset.mem_insert, Finset.mem_union]
  tauto

/-- A successful run of `init_sqlite_db` always succeeds and commits exactly
`finalState`: the six tables and eight indexes added to whatever was there,
and the two seed rows upserted. -/
theorem init_characterization (s : DBState) :
    init_sqlite_db s = Except.ok (finalState s) := by
  obtain ⟨t, i, a, n0⟩ := s
  show (runOps ⟨⟨t, i, a, n0⟩, none⟩ initOps).map Conn.durable = _
  rw [show initOps = [Op.pragma, Op.pragma, Op.pragma,
    Op.ddl (Stmt.createTable "app_info" true []),
    Op.ddl (Stmt.createTable "users" true []),
    Op.ddl (Stmt.createTable "credentials" true ["users"]),
    Op.ddl (Stmt.createTable "shares" true ["credentials", "users"]),
    Op.ddl (Stmt.createTable "ekyc_sessions" true ["users"]),
    Op.ddl (Stmt.createTable "audit_logs" true ["users"]),
    Op.ddl (Stmt.createIndex "idx_users_email" true "users" "email"),
    Op.ddl (Stmt.createIndex "idx_users_username" true "users" "username"),
    Op.ddl (Stmt.createIndex "idx_credentials_user_id" true "credentials" "user_id"),
    Op.ddl (Stmt.createIndex "idx_shares_credential_id" true "shares" "credential_id"),
    Op.ddl (Stmt.createIndex "idx_shares_shared_with_user_id" true "shares" "shared_with_user_id"),
    Op.ddl (Stmt.createIndex "idx_ekyc_user_id" true "ekyc_sessions" "user_id"),
    Op.ddl (Stmt.createIndex "idx_audit_user_id" true "audit_logs" "user_id"),
    Op.ddl (Stmt.createIndex "idx_audit_created_at" true "audit_logs" "created_at"),
    Op.dml "project_name" "database_postgres",
    Op.dml "version" "0.2.0",
    Op.commit, Op.commit] from rfl]
  rw [runOps_cons_ok (execOp_pragma _)]
  rw [runOps_cons_ok (execOp_pragma _)]
  rw [runOps_cons_ok (execOp_pragma _)]
  rw [runOps_cons_ok (execOp_createTable t i a n0 "app_info" [])]
  rw [runOps_cons_ok (execOp_createTable _ i a n0 "users" [])]
  rw [runOps_cons_ok (execOp_createTable _ i a n0 "credentials" ["users"])]
  rw [runOps_cons_ok (execOp_createTable _ i a n0 "shares" ["credentials", "users"])]
  rw [runOps_cons_ok (execOp_createTable _ i a n0 "ekyc_sessions" ["users"])]
  rw [runOps_cons_ok (execOp_createTable _ i a n0 "audit_logs" ["users"])]
  rw [runOps_cons_ok (execOp_createIndex _ i a n0 "idx_users_email" "users" "email"
    (by simp [Finset.mem_insert]))]
  rw [runOps_cons_ok (execOp_createIndex _ _ a n0 "idx_users_username" "users" "username"
    (by simp [Finset.mem_insert]))]
  rw [runOps_cons_ok (execOp_createIndex _ _ a n0 "idx_credentials_user_id" "credentials" "user_id"
    (by simp [Finset.mem_insert]))]
  rw [runOps_cons_ok (execOp_createIndex _ _ a n0 "idx_shares_credential_id" "shares" "credential_id"
    (by simp [Finset.mem_insert]))]
  rw [runOps_cons_ok (execOp_createIndex _ _ a n0 "idx_shares_shared_with_user_id" "shares" "shared_with_user_id"
    (by simp [Finset.mem_insert]))]
  rw [runOps_cons_ok (execOp_createIndex _ _ a n0 "idx_ekyc_user_id" "ekyc_sessions" "user_id"
    (by simp [Finset.mem_insert]))]
  rw [runOps_cons_ok (execOp_createIndex _ _ a n0 "idx_audit_user_id" "audit_logs" "user_id"
    (by simp [Finset.mem_insert]))]
  rw [runOps_cons_ok (execOp_createIndex _ _ a n0 "idx_audit_created_at" "audit_logs" "created_at"
    (by simp [Finset.mem_insert]))]
  rw [runOps_cons_ok (execOp_dml_none _ "project_name" "database_postgres")]
  rw [runOps_cons_ok (execOp_dml_some _ _ "version" "0.2.0")]
  rw [runOps_cons_ok (execOp_commit_some _ _)]
  rw [runOps_cons_ok (execOp_commit_none _)]
  rw [insert_chain_tables, insert_chain_indexes]
  rfl

theorem finalState_tables (s : DBState) :
    (finalState s).tables = sixTableNames ∪ s.tables := rfl

theorem finalState_indexes (s : DBState) :
    (finalState s).indexes = eightIndexNames ∪ s.indexes := rfl

theorem finalState_appInfo (s : DBState) :
    (finalState s).appInfo =
      iorRows (iorRows s.appInfo s.nextId "project_name" "database_postgres")
        (s.nextId + 1) "version" "0.2.0" := rfl

/-- Seeding in normal form: the non-seed rows followed by the two fresh seed
rows. -/
theorem seed_norm (A : List AppInfoRow) (i j : Nat) :
    iorRows (iorRows A i "project_name" "database_postgres") j "version" "0.2.0" =
      purged A ++
        [⟨i, "project_name", "database_postgres"⟩, ⟨j, "version", "0.2.0"⟩] := by
  unfold iorRows purged
  rw [List.filter_append, List.filter_filter]
  simp

theorem purged_append (A B : List AppInfoRow) :
    purged (A ++ B) = purged A ++ purged B := by
  unfold purged
  exact List.filter_append _ _

theorem purged_purged (A : List AppInfoRow) :
    purged (purged A) = purged A := by
  unfold purged
  rw [List.filter_filter]
  simp

theorem purged_seeds (i j : Nat) :
    purged [⟨i, "project_name", "database_postgres"⟩, ⟨j, "version", "0.2.0"⟩]
      = [] := by
  simp [purged]

theorem purged_no_pn (A : List AppInfoRow) :
    (purged A).filter (fun r => r.key == "project_name") = [] := by
  unfold purged
  rw [List.filter_filter]
  rw [List.filter_eq_nil_iff]
  intro r _
  by_cases hk : r.key = "project_name" <;> simp [hk]

theorem purged_no_ver (A : List AppInfoRow) :
    (purged A).filter (fun r => r.key == "version") = [] := by
  unfold purged
  rw [List.filter_filter]
  rw [List.filter_eq_nil_iff]
  intro r _
  by_cases hk : r.key = "version" <;> simp [hk]

/-! ## Claims about the initializer -/

/-- C1: evaluation of the initializer at the failing input.  Operation index
4 of `initOps` is the second DDL statement (`CREATE TABLE users`); when the
first four operations (the three pragmas and `CREATE TABLE app_info`)
succeed on a fresh database and operation 4 then raises a storage error, the
rolled-back durable state already contains the `app_info` table — it is not
the pre-run (empty) state the claim requires. -/
theorem claim_C1_partial_schema_persists :
    initOps.get? 4 = some (Op.ddl (Stmt.createTable "users" true [])) ∧
    durableOnFailureAt freshDB 4 =
      some ⟨{"app_info"}, ∅, [], 1⟩ ∧
    durableOnFailureAt freshDB 4 ≠ some freshDB := by decide

/-- C3: running the initializer a second time on the state left by a first
run changes neither the table set nor the index set, and leaves the
`app_info` rows equal up to their (rewritten) surrogate ids: the two seed
rows are upserted, never duplicated. -/
theorem claim_C3_idempotent (s s1 s2 : DBState)
    (h1 : init_sqlite_db s = Except.ok s1)
    (h2 : init_sqlite_db s1 = Except.ok s2) :
    s2.tables = s1.tables ∧ s2.indexes = s1.indexes ∧
      s2.appInfo.map (fun r => (r.key, r.value)) =
        s1.appInfo.map (fun r => (r.key, r.value)) := by
  rw [init_characterization] at h1 h2
  obtain rfl : finalState s = s1 := Except.ok.inj h1
  obtain rfl : finalState (finalState s) = s2 := Except.ok.inj h2
  refine ⟨?_, ?_, ?_⟩
  · rw [finalState_tables, finalState_tables, ← Finset.union_assoc,
      Finset.union_self]
  · rw [finalState_indexes, finalState_indexes, ← Finset.union_assoc,
      Finset.union_self]
  · rw [finalState_appInfo, finalState_appInfo, seed_norm, seed_norm,
      purged_append, purged_purged, purged_seeds]
    simp

/-- C3 witness: the idempotence conclusion at the concrete fresh database. -/
theorem claim_C3_idempotent_witness :
    (finalState (finalState freshDB)).tables = (finalState freshDB).tables ∧
      (finalState (finalState freshDB)).indexes = (finalState freshDB).indexes ∧
      (finalState (finalState freshDB)).appInfo.map (fun r => (r.key, r.value)) =
        (finalState freshDB).appInfo.map (fun r => (r.key, r.value)) :=
  claim_C3_idempotent freshDB (finalState freshDB) (finalState (finalState freshDB))
    (init_characterization freshDB) (init_characterization (finalState freshDB))

/-- C4: after any successful run of the initializer, `app_info` holds
exactly one row with key `project_name` (value `database_postgres`) and
exactly one row with key `version` (value `0.2.0`). -/
theorem claim_C4_seed_rows (s s' : DBState)
    (h : init_sqlite_db s = Except.ok s') :
    (∃ i, s'.appInfo.filter (fun r => r.key == "project_name") =
        [⟨i, "project_name", "database_postgres"⟩]) ∧
    (∃ j, s'.appInfo.filter (fun r => r.key == "version") =
        [⟨j, "version", "0.2.0"⟩]) := by
  rw [init_characterization] at h
  obtain rfl : finalState s = s' := Except.ok.inj h
  rw [finalState_appInfo, seed_norm]
  constructor
  · exact ⟨s.nextId, by rw [List.filter_append, purged_no_pn]; simp⟩
  · exact ⟨s.nextId + 1, by rw [List.filter_append, purged_no_ver]; simp⟩

/-- C4 witness: the seed-row conclusion at the concrete fresh database. -/
theorem claim_C4_seed_rows_witness :
    (∃ i, (finalState freshDB).appInfo.filter (fun r => r.key == "project_name") =
        [⟨i, "project_name", "database_postgres"⟩]) ∧
    (∃ j, (finalState freshDB).appInfo.filter (fun r => r.key == "version") =
        [⟨j, "version", "0.2.0"⟩]) :=
  claim_C4_seed_rows freshDB (finalState freshDB) (init_characterization freshDB)

/-- C5: the connection-lifecycle events of `init_sqlite_db`.  On the normal
path the connection is committed (explicitly and by the context manager) and
on the exception path it is rolled back, but no exit path contains a close:
the source never calls `conn.close()` and the `sqlite3` connection context
manager does not close the connection. -/
theorem claim_C5_connection_never_closed :
    connEvents false =
      [ConnEvent.openConn, ConnEvent.commitTxn, ConnEvent.commitTxn] ∧
    connEvents true = [ConnEvent.openConn, ConnEvent.rollbackTxn] ∧
    ConnEvent.closeConn ∉ connEvents false ∧
    ConnEvent.closeConn ∉ connEvents true := by decide

/-- C7: each artifact write is attempted regardless of the failures of the
others (exactly the non-failing artifacts get written, in source order),
each failing write contributes one warning, and the overall run — schema
initialization followed by the artifact writes — still completes
successfully whatever subset of writes fails. -/
theorem claim_C7_artifact_writes_fault_tolerant (fails : String → Bool)
    (s : DBState) :
    (write_connection_files fails).written =
        artifactPaths.filter (fun p => !(fails p)) ∧
      (write_connection_files fails).warnings.length =
        (artifactPaths.filter (fun p => fails p)).length ∧
      initAndWrite s fails =
        Except.ok (finalState s, write_connection_files fails) := by
  have hall : initAndWrite s fails =
      Except.ok (finalState s, write_connection_files fails) := by
    unfold initAndWrite
    rw [init_characterization]
    rfl
  refine ⟨?_, ?_, hall⟩ <;>
    cases h1 : fails "db_connection.txt" <;> cases h2 : fails ".env" <;>
      cases h3 : fails "db_visualizer/sqlite.env" <;>
        simp [write_connection_files, tryWrite, artifactPaths, h1, h2, h3]

/-- C7 witness: the conclusion at a concrete failure pattern (only the
`.env` write fails) and the fresh database. -/
theorem claim_C7_artifact_writes_fault_tolerant_witness :
    (write_connection_files (fun p => p == ".env")).written =
        artifactPaths.filter (fun p => !((fun q => q == ".env") p)) ∧
      (write_connection_files (fun p => p == ".env")).warnings.length =
        (artifactPaths.filter (fun p => (fun q => q == ".env") p)).length ∧
      initAndWrite freshDB (fun p => p == ".env") =
        Except.ok (finalState freshDB, write_connection_files (fun p => p == ".env")) :=
  claim_C7_artifact_writes_fault_tolerant (fun p => p == ".env") freshDB

/-- C8: the DDL list consists of the six guarded table creations in the
stated order, followed by the eight guarded index creations covering exactly
the stated (table, column) pairs in order; every statement is guarded, and
the dependency order holds — each index's table, and each table's
foreign-key targets, are created earlier in the list. -/
theorem claim_C8_ddl_order :
    schemaStmts.take 6 =
      [Stmt.createTable "app_info" true [],
       Stmt.createTable "users" true [],
       Stmt.createTable "credentials" true ["users"],
       Stmt.createTable "shares" true ["credentials", "users"],
       Stmt.createTable "ekyc_sessions" true ["users"],
       Stmt.createTable "audit_logs" true ["users"]] ∧
    (schemaStmts.drop 6).map indexKey =
      [some ("users", "email"), some ("users", "username"),
       some ("credentials", "user_id"), some ("shares", "credential_id"),
       some ("shares", "shared_with_user_id"), some ("ekyc_sessions", "user_id"),
       some ("audit_logs", "user_id"), some ("audit_logs", "created_at")] ∧
    schemaStmts.length = 14 ∧
    schemaStmts.all guardedStmt = true ∧
    ddlOrdered schemaStmts [] = true := by decide

/-- C9: the statement executor runs exactly the statements that are
non-empty after stripping, in their original order (each executed in its
stripped form), and skips empty or whitespace-only entries. -/
theorem claim_C9_execute_many (stmts : List String) :
    _execute_many stmts =
      (stmts.filter (fun stmt => stmt.trim != "")).map String.trim := by
  induction stmts with
  | nil => rfl
  | cons stmt rest ih =>
    by_cases h : stmt.trim = ""
    · simp [_execute_many, h, ih]
    · simp [_execute_many, h, ih]

/-- C9 witness: the executor at a concrete statement list with a whitespace
entry and an empty entry. -/
theorem claim_C9_execute_many_witness :
    _execute_many ["  CREATE TABLE t (x INTEGER);  ", "", "   "] =
      ((["  CREATE TABLE t (x INTEGER);  ", "", "   "] : List String).filter
        (fun stmt => stmt.trim != "")).map String.trim :=
  claim_C9_execute_many ["  CREATE TABLE t (x INTEGER);  ", "", "   "]

end InitDb

/-! ## Claims about the validator -/

namespace TestDb

theorem main_ok_congr {m1 m2 : List String}
    (h : selectTables m1 = selectTables m2) :
    main true (Except.ok m1) = main true (Except.ok m2) := by
  simp [main, h]

theorem msgText_head_missing (m ex : Finset String) :
    (msgText (ValidatorMsg.missingTables m ex)).data.head? = some 'M' := by
  have hlit : ("Missing tables: ").data.head? = some 'M' := by decide
  simp [msgText, String.data_append, List.head?_append, hlit, Option.or]

theorem msgText_head_error (e : String) :
    (msgText (ValidatorMsg.schemaError e)).data.head? = some 'S' := by
  have hlit : ("Schema validation failed: ").data.head? = some 'S' := by decide
  simp [msgText, String.data_append, List.head?_append, hlit, Option.or]

theorem msgText_distinct (m ex : Finset String) (e : String) :
    msgText ValidatorMsg.fileNotFound ≠ msgText (ValidatorMsg.missingTables m ex) ∧
    msgText ValidatorMsg.fileNotFound ≠ msgText (ValidatorMsg.schemaError e) ∧
    msgText (ValidatorMsg.missingTables m ex) ≠ msgText (ValidatorMsg.schemaError e) := by
  have hd : (msgText ValidatorMsg.fileNotFound).data.head? = some 'D' := by decide
  refine ⟨fun h => ?_, fun h => ?_, fun h => ?_⟩
  · have h2 : (msgText ValidatorMsg.fileNotFound).data.head? =
        (msgText (ValidatorMsg.missingTables m ex)).data.head? := by rw [h]
    rw [hd, msgText_head_missing] at h2
    simp at h2
  · have h2 : (msgText ValidatorMsg.fileNotFound).data.head? =
        (msgText (ValidatorMsg.schemaError e)).data.head? := by rw [h]
    rw [hd, msgText_head_error] at h2
    simp at h2
  · have h2 : (msgText (ValidatorMsg.missingTables m ex)).data.head? =
        (msgText (ValidatorMsg.schemaError e)).data.head? := by rw [h]
    rw [msgText_head_missing, msgText_head_error] at h2
    simp at h2

/-- C2, as stated, is false on the code: with exactly the five tables of
`REQUIRED_TABLES` present and no `app_info` table, the validator reports
success, although the difference of the claimed six-table set (one table per
entity, `app_info` included) minus the existing tables is nonempty —
`app_info` is not part of the validator's required set. -/
theorem claim_C2_counterexample :
    main true (Except.ok
        ["users", "credentials", "shares", "ekyc_sessions", "audit_logs"]) =
      ⟨0, ValidatorMsg.allPresent⟩ ∧
    (insert "app_info" REQUIRED_TABLES) \
        (["users", "credentials", "shares", "ekyc_sessions", "audit_logs"] :
          List String).toFinset ≠ ∅ ∧
    "app_info" ∉ REQUIRED_TABLES := by decide

/-- C2, amended: the required set has the five tables `users`,
`credentials`, `shares`, `ekyc_sessions`, `audit_logs` (no `app_info`); when
the file exists and the query succeeds, the validator succeeds exactly when
the difference of that five-table set minus the existing tables is empty,
and otherwise reports the specific missing and existing table sets. -/
theorem claim_C2_required_five_set_difference (master : List String) :
    ((main true (Except.ok master)).exitCode = 0 ↔
      REQUIRED_TABLES \ (selectTables master).toFinset = ∅) ∧
    (REQUIRED_TABLES \ (selectTables master).toFinset = ∅ →
      main true (Except.ok master) = ⟨0, ValidatorMsg.allPresent⟩) ∧
    (REQUIRED_TABLES \ (selectTables master).toFinset ≠ ∅ →
      main true (Except.ok master) =
        ⟨1, ValidatorMsg.missingTables
          (REQUIRED_TABLES \ (selectTables master).toFinset)
          ((selectTables master).toFinset)⟩) := by
  by_cases h : REQUIRED_TABLES \ (selectTables master).toFinset = ∅ <;>
    simp [main, h]

/-- C2 witness: the amended behaviour at a concrete database that misses
three required tables. -/
theorem claim_C2_required_five_set_difference_witness :
    main true (Except.ok ["users", "credentials"]) =
      ⟨1, ValidatorMsg.missingTables
        (REQUIRED_TABLES \ (selectTables ["users", "credentials"]).toFinset)
        ((selectTables ["users", "credentials"]).toFinset)⟩ :=
  (claim_C2_required_five_set_difference ["users", "credentials"]).2.2 (by decide)

/-- C6: the validator's exit code is 0 exactly when the file exists, the
query succeeds and every required table is present; when the file is absent
no schema check is attempted and the file-not-found message is produced;
a storage error and a missing-table set each produce their own result; and
the three failure messages are pairwise distinct. -/
theorem claim_C6_exit_status (fe : Bool) (q : Except String (List String)) :
    (((main fe q).exitCode = 0 ↔
      fe = true ∧ ∃ master, q = Except.ok master ∧
        REQUIRED_TABLES ⊆ (selectTables master).toFinset) ∧
    (fe = false → main fe q = ⟨1, ValidatorMsg.fileNotFound⟩) ∧
    (∀ e, fe = true → q = Except.error e →
      main fe q = ⟨1, ValidatorMsg.schemaError e⟩) ∧
    (∀ master, fe = true → q = Except.ok master →
      ¬ REQUIRED_TABLES ⊆ (selectTables master).toFinset →
      main fe q = ⟨1, ValidatorMsg.missingTables
        (REQUIRED_TABLES \ (selectTables master).toFinset)
        ((selectTables master).toFinset)⟩)) ∧
    (∀ m ex e, msgText ValidatorMsg.fileNotFound ≠
        msgText (ValidatorMsg.missingTables m ex) ∧
      msgText ValidatorMsg.fileNotFound ≠ msgText (ValidatorMsg.schemaError e) ∧
      msgText (ValidatorMsg.missingTables m ex) ≠
        msgText (ValidatorMsg.schemaError e)) := by
  refine ⟨?_, fun m ex e => msgText_distinct m ex e⟩
  cases fe with
  | false => simp [main]
  | true =>
    cases q with
    | error e => simp [main]
    | ok master =>
      by_cases h : REQUIRED_TABLES \ (selectTables master).toFinset = ∅
      · have hs : REQUIRED_TABLES ⊆ (selectTables master).toFinset :=
          Finset.sdiff_eq_empty_iff_subset.mp h
        simp [main, h, hs]
      · have hs : ¬ REQUIRED_TABLES ⊆ (selectTables master).toFinset :=
          fun c => h (Finset.sdiff_eq_empty_iff_subset.mpr c)
        simp [main, h, hs]

/-- C6 witness: the exit-status conclusion at the concrete storage-error
input. -/
theorem claim_C6_exit_status_witness :
    main true (Except.error "disk I/O error") =
      ⟨1, ValidatorMsg.schemaError "disk I/O error"⟩ :=
  (claim_C6_exit_status true (Except.error "disk I/O error")).1.2.2.1
    "disk I/O error" rfl rfl

/-- C10: the verdict is monotone in the non-internal table set — whenever
the tables whose names do not begin with `sqlite_` include all required
tables, the validator exits 0 no matter which further tables exist — and a
table whose name begins with `sqlite_` is filtered out of the enumerated
existing set and never changes the result. -/
theorem claim_C10_monotone_and_internal_blind (master : List String)
    (t r : String) :
    (REQUIRED_TABLES ⊆
        (master.filter (fun n => !(beginsWithSqliteUnd n))).toFinset →
      (main true (Except.ok master)).exitCode = 0) ∧
    (t = "sqlite_" ++ r →
      t ∉ selectTables master ∧
      main true (Except.ok (t :: master)) = main true (Except.ok master)) := by
  constructor
  · intro hsub
    have hsub2 : REQUIRED_TABLES ⊆ (selectTables master).toFinset := by
      intro x hx
      have hm : x ∈ master :=
        (List.mem_filter.mp (List.mem_toFinset.mp (hsub hx))).1
      have hlike : likeSqliteWildcard x = false := by
        simp [REQUIRED_TABLES, Finset.mem_insert] at hx
        rcases hx with h | h | h | h | h <;> subst h <;> decide
      exact List.mem_toFinset.mpr
        (List.mem_filter.mpr ⟨hm, by simp [hlike]⟩)
    have h0 : REQUIRED_TABLES \ (selectTables master).toFinset = ∅ :=
      Finset.sdiff_eq_empty_iff_subset.mpr hsub2
    simp [main, h0]
  · intro ht
    have hlike : likeSqliteWildcard t = true := by
      subst ht
      have hd : ("sqlite_" ++ r).data =
          's' :: 'q' :: 'l' :: 'i' :: 't' :: 'e' :: '_' :: r.data := by
        rw [String.data_append]
        rfl
      simp [likeSqliteWildcard, hd]
    refine ⟨?_, ?_⟩
    · intro hmem
      have h2 := (List.mem_filter.mp hmem).2
      rw [hlike] at h2
      simp at h2
    · exact main_ok_congr (by simp [selectTables, hlike])

/-- C10 witness: the monotonicity and blindness conclusions at a concrete
database with one extra user table and one engine-internal table. -/
theorem claim_C10_monotone_and_internal_blind_witness :
    (main true (Except.ok
      ["users", "credentials", "shares", "ekyc_sessions", "audit_logs",
       "extra"])).exitCode = 0 ∧
    "sqlite_sequence" ∉ selectTables
      ["users", "credentials", "shares", "ekyc_sessions", "audit_logs",
       "extra"] ∧
    main true (Except.ok ("sqlite_sequence" ::
      ["users", "credentials", "shares", "ekyc_sessions", "audit_logs",
       "extra"])) =
      main true (Except.ok
      ["users", "credentials", "shares", "ekyc_sessions", "audit_logs",
       "extra"]) := by
  have h := claim_C10_monotone_and_internal_blind
    ["users", "credentials", "shares", "ekyc_sessions", "audit_logs", "extra"]
    "sqlite_sequence" "sequence"
  exact ⟨h.1 (by decide), (h.2 rfl).1, (h.2 rfl).2⟩

end TestDb

end DatabasePostgres
